import Mathlib

/-
Verification development for the demon wallet adapter repository.

The repository has two source files under verification:
  * src/adapter/baseInjectedProvider.ts — a JSON-RPC middleware chain
    (method router and config responder);
  * src/adapter/demonAdapter.ts — the adapter facade with its
    connect/disconnect lifecycle state machine.

Pure fragments of the TypeScript are embedded as Lean functions; the
lifecycle methods become explicit state-passing functions.  Calls into
code that is not part of the two files (the injected wallet object, the
host framework's base-adapter checks, the session teardown) are modelled
as environment parameters or as definitions marked "Modelled from the
spec", faithful to the specification's words.
-/

namespace Demon

/-! ## Basic data: errors, events, chain config, JSON values -/

/-- Error taxonomy.  `connectionError`, `disconnectionError`,
`notConnectedError` and `unsupportedOperation` mirror the
`WalletLoginError` factory methods used by the source; the message of
`connectionError`/`disconnectionError` is optional because the source
sometimes calls the factory with no argument
(`WalletLoginError.connectionError()`).  `preconditionError` is
modelled from the spec's taxonomy for the base-class requirement checks.
`handlerNotProvided` is the plain `Error` thrown by the middleware when a
bound handler is absent.  `external` stands for a non-`Web3AuthError`
raised by the injected wallet. -/
inductive Err where
  | connectionError (msg : Option String)
  | disconnectionError (msg : Option String)
  | notConnectedError (msg : String)
  | unsupportedOperation (msg : String)
  | preconditionError (msg : String)
  | handlerNotProvided (msg : String)
  | external (msg : String)
deriving DecidableEq, Repr

/-- The `error instanceof Web3AuthError` test in `connect`'s inner catch:
errors produced by the `WalletLoginError` factories are `Web3AuthError`s,
a plain `Error` or a foreign wallet error is not. -/
def isWeb3AuthError : Err → Bool
  | .external _ => false
  | .handlerNotProvided _ => false
  | _ => true

/-- The `(error as Error)?.message` access used when re-wrapping errors. -/
def errMessage : Err → Option String
  | .connectionError m => m
  | .disconnectionError m => m
  | .notConnectedError m => some m
  | .unsupportedOperation m => some m
  | .preconditionError m => some m
  | .handlerNotProvided m => some m
  | .external m => some m

/-- Adapter lifecycle events (`ADAPTER_EVENTS` emissions in the source).
`ready`/`connecting`/`connected` carry the adapter name payload
(`'DEMON'`); `connected` also carries the `reconnected` flag. -/
inductive AdapterEvent where
  | ready (adapterName : String)
  | connecting (adapterName : String)
  | connected (adapterName : String) (reconnected : Bool)
  | disconnected
  | errored (e : Err)
deriving DecidableEq, Repr

/-- `ADAPTER_STATUS` from the host framework: the four-value status enum. -/
inductive ADAPTER_STATUS where
  | NOT_READY
  | READY
  | CONNECTING
  | CONNECTED
deriving DecidableEq, Repr

/-- Chain configuration.  The source only ever reads `chainId` from it,
so the embedded record keeps that single field. -/
structure ChainConfig where
  chainId : String
deriving DecidableEq, Repr

/-- Opaque JSON-RPC values: request params and handler results. -/
inductive JVal where
  | vNull
  | vStr (s : String)
  | vStrs (l : List String)
  | vConfig (c : ChainConfig)
deriving DecidableEq, Repr

/-! ## The JSON-RPC middleware chain (baseInjectedProvider.ts) -/

/-- `JRPCRequest`: a method name plus an opaque payload. -/
structure JRPCRequest where
  method : String
  params : JVal
deriving DecidableEq, Repr

/-- `JRPCResponse`: the `result` slot a claiming middleware writes into. -/
structure JRPCResponse where
  result : Option JVal
deriving DecidableEq, Repr

/-- Outcome of one middleware: `next` means fall through to the next
stage (the `return next()` branch), `ended` means the request was
claimed (`return end()` / `return undefined` in an async middleware). -/
inductive Ctl where
  | next
  | ended
deriving DecidableEq, Repr

/-- A middleware reads the request, may rewrite the response, and either
falls through or ends the chain; it can also throw. -/
def Middleware : Type :=
  JRPCRequest → JRPCResponse → Except Err (JRPCResponse × Ctl)

/-- An async provider handler (`IProviderHandlers` member). -/
def Handler : Type := JRPCRequest → Except Err JVal

/-- Sequential middleware execution, the engine primitive the source
gets from `JRPCEngine`/`mergeMiddleware`: run the middlewares in order,
stopping at the first one that ends the chain or throws; if none claims
the request, signal fall-through to the next stage. -/
def runChain : List Middleware → JRPCRequest → JRPCResponse →
    Except Err (JRPCResponse × Ctl)
  | [], _, res => .ok (res, .next)
  | m :: ms, req, res =>
    match m req res with
    | .error e => .error e
    | .ok (res1, .ended) => .ok (res1, .ended)
    | .ok (res1, .next) => runChain ms req res1

/-- `mergeMiddleware`: a list of middlewares packaged as one. -/
def mergeMiddleware (ms : List Middleware) : Middleware :=
  fun req res => runChain ms req res

/-- `createChainIdMiddleware(chainId)`: answers `solana_chainId` with the
string captured at creation time, otherwise falls through. -/
def createChainIdMiddleware (chainId : String) : Middleware :=
  fun req res =>
    if req.method = "solana_chainId" then
      .ok ({ res with result := some (.vStr chainId) }, .ended)
    else
      .ok (res, .next)

/-- `createProviderConfigMiddleware(providerConfig)`: answers
`solana_provider_config` with the config captured at creation time. -/
def createProviderConfigMiddleware (providerConfig : ChainConfig) : Middleware :=
  fun req res =>
    if req.method = "solana_provider_config" then
      .ok ({ res with result := some (.vConfig providerConfig) }, .ended)
    else
      .ok (res, .next)

/-- `createConfigMiddleware(providerConfig)`: destructures `chainId` from
the given config and merges the two config responders. -/
def createConfigMiddleware (providerConfig : ChainConfig) : Middleware :=
  mergeMiddleware
    [createChainIdMiddleware providerConfig.chainId,
     createProviderConfigMiddleware providerConfig]

/-- `createGetAccountsMiddleware({ getAccounts })`. -/
def createGetAccountsMiddleware (getAccounts : Option Handler) : Middleware :=
  fun req res =>
    if req.method ≠ "getAccounts" then .ok (res, .next)
    else
      match getAccounts with
      | none => .error (.handlerNotProvided "WalletMiddleware - opts.getAccounts not provided")
      | some h => (h req).map fun accounts => ({ res with result := some accounts }, .ended)

/-- `createRequestAccountsMiddleware({ requestAccounts })`. -/
def createRequestAccountsMiddleware (requestAccounts : Option Handler) : Middleware :=
  fun req res =>
    if req.method ≠ "requestAccounts" then .ok (res, .next)
    else
      match requestAccounts with
      | none => .error (.handlerNotProvided "WalletMiddleware - opts.requestAccounts not provided")
      | some h => (h req).map fun accounts => ({ res with result := some accounts }, .ended)

/-- `createGenericJRPCMiddleware(targetMethod, handler)`: claim exactly
the requests whose method equals `targetMethod`; a missing handler is an
error naming the method; otherwise await the handler on the request and
write its result. -/
def createGenericJRPCMiddleware (targetMethod : String) (handler : Option Handler) :
    Middleware :=
  fun req res =>
    if req.method ≠ targetMethod then .ok (res, .next)
    else
      match handler with
      | none => .error (.handlerNotProvided ("WalletMiddleware - " ++ targetMethod ++ " not provided"))
      | some h => (h req).map fun result => ({ res with result := some result }, .ended)

/-- `IProviderHandlers`: the eight handler slots destructured by
`createSolanaMiddleware`.  Each slot may be absent, mirroring the
runtime `if (!handler)` checks. -/
structure IProviderHandlers where
  requestAccounts : Option Handler
  getAccounts : Option Handler
  signTransaction : Option Handler
  signAndSendTransaction : Option Handler
  signAllTransactions : Option Handler
  signMessage : Option Handler
  getPrivateKey : Option Handler
  getSecretKey : Option Handler

/-- `createSolanaMiddleware(providerHandlers)`: the nine business-method
middlewares merged in the source's declaration order.  Note that both
`solanaPrivateKey` and `private_key` are wired to `getPrivateKey`. -/
def createSolanaMiddleware (H : IProviderHandlers) : Middleware :=
  mergeMiddleware
    [createRequestAccountsMiddleware H.requestAccounts,
     createGetAccountsMiddleware H.getAccounts,
     createGenericJRPCMiddleware "signTransaction" H.signTransaction,
     createGenericJRPCMiddleware "signAndSendTransaction" H.signAndSendTransaction,
     createGenericJRPCMiddleware "signAllTransactions" H.signAllTransactions,
     createGenericJRPCMiddleware "signMessage" H.signMessage,
     createGenericJRPCMiddleware "solanaPrivateKey" H.getPrivateKey,
     createGenericJRPCMiddleware "private_key" H.getPrivateKey,
     createGenericJRPCMiddleware "solanaSecretKey" H.getSecretKey]

/-- A (method name, handler) binding of the router, together with the
"handler not provided" message its middleware raises. -/
structure Binding where
  methodName : String
  missingMsg : String
  handler : Option Handler

/-- The outcome the router contract prescribes for the binding that
claims a request: absent handler is an error, otherwise the handler's
return value is assigned into `response.result` and the chain ends. -/
def bindingOutcome (b : Binding) (req : JRPCRequest) (res : JRPCResponse) :
    Except Err (JRPCResponse × Ctl) :=
  match b.handler with
  | none => .error (.handlerNotProvided b.missingMsg)
  | some h => (h req).map fun v => ({ res with result := some v }, .ended)

/-- One binding viewed as a middleware (the common shape of the nine
business-method middlewares above). -/
def bindingMiddleware (b : Binding) : Middleware :=
  fun req res =>
    if req.method ≠ b.methodName then .ok (res, .next)
    else bindingOutcome b req res

/-- Dispatch over an ordered binding list. -/
def runBindings (bs : List Binding) (req : JRPCRequest) (res : JRPCResponse) :
    Except Err (JRPCResponse × Ctl) :=
  runChain (bs.map bindingMiddleware) req res

/-- The binding list of `createSolanaMiddleware`, in declaration order. -/
def solanaBindings (H : IProviderHandlers) : List Binding :=
  [⟨"requestAccounts", "WalletMiddleware - opts.requestAccounts not provided", H.requestAccounts⟩,
   ⟨"getAccounts", "WalletMiddleware - opts.getAccounts not provided", H.getAccounts⟩,
   ⟨"signTransaction", "WalletMiddleware - signTransaction not provided", H.signTransaction⟩,
   ⟨"signAndSendTransaction", "WalletMiddleware - signAndSendTransaction not provided", H.signAndSendTransaction⟩,
   ⟨"signAllTransactions", "WalletMiddleware - signAllTransactions not provided", H.signAllTransactions⟩,
   ⟨"signMessage", "WalletMiddleware - signMessage not provided", H.signMessage⟩,
   ⟨"solanaPrivateKey", "WalletMiddleware - solanaPrivateKey not provided", H.getPrivateKey⟩,
   ⟨"private_key", "WalletMiddleware - private_key not provided", H.getPrivateKey⟩,
   ⟨"solanaSecretKey", "WalletMiddleware - solanaSecretKey not provided", H.getSecretKey⟩]

/-- The method names claimed by the two fixed engine stages: the nine
business methods and the two config queries. -/
def engineMethodNames : List String :=
  ["requestAccounts", "getAccounts", "signTransaction", "signAndSendTransaction",
   "signAllTransactions", "signMessage", "solanaPrivateKey", "private_key",
   "solanaSecretKey", "solana_chainId", "solana_provider_config"]

/-- The engine built by `setupProvider`: the solana middleware followed by
the config middleware.  The optional injected-provider proxy stage
(`getInjectedProviderProxy`, `undefined` in the base class) is the "next
stage" a fall-through (`Ctl.next`) reaches. -/
def setupProviderMiddlewares (H : IProviderHandlers) (cfg : ChainConfig) :
    List Middleware :=
  [createSolanaMiddleware H, createConfigMiddleware cfg]

example :
    runChain (setupProviderMiddlewares ⟨none, none, none, none, none, none, none, none⟩ ⟨"0x1"⟩)
      ⟨"solana_chainId", .vNull⟩ ⟨none⟩
      = .ok (⟨some (.vStr "0x1")⟩, .ended) := rfl

example :
    runChain (setupProviderMiddlewares ⟨none, none, none, none, none, none, none, none⟩ ⟨"0x1"⟩)
      ⟨"someUnknownMethod", .vNull⟩ ⟨none⟩
      = .ok (⟨none⟩, .next) := rfl

/-! ## Adapter state (demonAdapter.ts) -/

/-- Modelled from the spec: the injected wallet session
(`DemonWalletAdapter`, `./demonWalletAdapter`, not under src/).  The spec
describes its capability interface: `connected` boolean, `publicKey`
readable after connect, and a network selected at construction. -/
structure WalletState where
  connected : Bool
  publicKey : Option String
  network : String
deriving DecidableEq, Repr

/-- The engine a provider holds after `setupProvider`: the handlers
obtained from `getProviderHandlers(injectedProvider)` and the chain
config captured by `createConfigMiddleware` when the engine was built. -/
structure EngineState where
  handlers : IProviderHandlers
  config : ChainConfig

/-- The `DemonInjectedProvider` object: its `config.chainConfig`
(fixed at construction by the `BaseInjectedProvider` constructor) and the
engine built by `setupProvider` (absent until then). -/
structure ProviderState where
  configChainConfig : ChainConfig
  engine : Option EngineState

/-- The adapter's mutable fields: `status`, `_wallet`, `demonProvider`,
`rehydrated`, plus the chain-config storage of the base class
(`chainConfig` / `addChainConfig` / `getChainConfig`) and whether the
`_onDisconnect` listener is currently registered on the wallet
(`wallet.on("disconnect", ...)` / `wallet.off("disconnect", ...)`). -/
structure AdapterState where
  status : ADAPTER_STATUS
  wallet : Option WalletState
  demonProvider : Option ProviderState
  rehydrated : Bool
  chainConfig : Option ChainConfig
  knownChains : List ChainConfig
  handlerRegistered : Bool

/-- Modelled from the spec: `super.checkConnectionRequirements()` from
the host framework's base adapter class (an external collaborator).
The spec: connect "requires current state READY (else fails with a
precondition error)" and "calling connect() while already CONNECTED or
CONNECTING must fail fast with a precondition error". -/
def checkConnectionRequirements (s : AdapterState) : Except Err Unit :=
  if s.status = .CONNECTED then .error (.preconditionError "already connected")
  else if s.status = .CONNECTING then .error (.preconditionError "already connecting")
  else if s.status ≠ .READY then .error (.preconditionError "adapter not ready")
  else .ok ()

/-- The chain-id-to-cluster lookup inlined in `connect` (lines 87–98):
`"0x1"`→`"mainnet-beta"`, `"0x2"`→`"devnet"`, `"0x3"`→`"testnet"`, any
other value throws
`WalletLoginError.connectionError("Invalid chainId, demon doesn't support custom solana networks")`.
The argument is `this.chainConfig?.chainId`. -/
def resolveCluster (chainId : Option String) : Except Err String :=
  if chainId = some "0x1" then .ok "mainnet-beta"
  else if chainId = some "0x2" then .ok "devnet"
  else if chainId = some "0x3" then .ok "testnet"
  else .error (.connectionError (some "Invalid chainId, demon doesn't support custom solana networks"))

/-- Environment for one `connect` call: the behaviour of the external
wallet object constructed by `new DemonWalletAdapter({ network })` and
the handlers `DemonInjectedProvider.getProviderHandlers` derives from it.
Modelled from the spec: the wallet's `connect()` "throws on failure",
`publicKey` is "readable after connect". -/
structure ConnectEnv where
  walletInitiallyConnected : Bool
  walletInitialPublicKey : Option String
  walletConnectOutcome : Except Err Unit
  walletPublicKey : Option String
  providerHandlers : IProviderHandlers

/-- Everything a `connect` call produces: the promise outcome, the final
adapter state, the emitted events, and the intermediate adapter states
after each field mutation in program order (the trace). -/
structure ConnectResult where
  result : Except Err Unit
  state : AdapterState
  events : List AdapterEvent
  trace : List AdapterState

/-- The catch block of `connect` (lines 117–123): on any error, set
status back to READY, clear the rehydration flag, emit ERRORED, and
rethrow. -/
def connectCatch (s : AdapterState) (e : Err) (evs : List AdapterEvent)
    (tr : List AdapterState) : ConnectResult :=
  let s1 := { s with status := .READY, rehydrated := false }
  ⟨.error e, s1, evs ++ [.errored e], tr ++ [s1]⟩

/-- `connectWithProvider(injectedProvider)` (lines 175–187): requires a
non-null `demonProvider`; runs `setupProvider` (which builds the engine,
capturing the provider's `config.chainConfig`); only then sets status to
CONNECTED and emits the CONNECTED event.  Returns the outcome, the state,
the events, and the two intermediate states (engine installed; status
set). -/
def connectWithProvider (s : AdapterState) (H : IProviderHandlers) :
    Except Err Unit × AdapterState × List AdapterEvent × List AdapterState :=
  match s.demonProvider with
  | none => (.error (.connectionError (some "No demon provider")), s, [], [])
  | some pr =>
    let pr1 : ProviderState := { pr with engine := some ⟨H, pr.configChainConfig⟩ }
    let sA := { s with demonProvider := some pr1 }
    let sB := { sA with status := ADAPTER_STATUS.CONNECTED }
    (.ok (), sB, [.connected "DEMON" s.rehydrated], [sA, sB])

/-- `connect()` (lines 80–123), step by step in source order:
requirement check; status := CONNECTING and CONNECTING event; cluster
lookup from `this.chainConfig?.chainId`; construction of the wallet for
that network and `wallet.connect()` if not already connected (re-wrapping
non-`Web3AuthError` failures as connection errors); `connectWithProvider`;
`this._wallet = wallet`; the `publicKey` null check; registration of the
`_onDisconnect` listener.  Every failure goes through the catch block. -/
def connect (s : AdapterState) (env : ConnectEnv) : ConnectResult :=
  match checkConnectionRequirements s with
  | .error e => connectCatch s e [] []
  | .ok () =>
    let s1 := { s with status := ADAPTER_STATUS.CONNECTING }
    let evs1 : List AdapterEvent := [.connecting "DEMON"]
    let tr1 := [s1]
    match resolveCluster (s.chainConfig.map (·.chainId)) with
    | .error e => connectCatch s1 e evs1 tr1
    | .ok cluster =>
      let w0 : WalletState :=
        { connected := env.walletInitiallyConnected,
          publicKey := env.walletInitialPublicKey, network := cluster }
      let walletAfterConnect : Except Err WalletState :=
        if w0.connected then .ok w0
        else
          match env.walletConnectOutcome with
          | .error e =>
            .error (if isWeb3AuthError e then e else .connectionError (errMessage e))
          | .ok () => .ok { w0 with connected := true, publicKey := env.walletPublicKey }
      match walletAfterConnect with
      | .error e => connectCatch s1 e evs1 tr1
      | .ok w =>
        match connectWithProvider s1 env.providerHandlers with
        | (.error e, s2, evs2, tr2) => connectCatch s2 e (evs1 ++ evs2) (tr1 ++ tr2)
        | (.ok (), s2, evs2, tr2) =>
          let s3 := { s2 with wallet := some w }
          let tr3 := tr1 ++ tr2 ++ [s3]
          match w.publicKey with
          | none => connectCatch s3 (.connectionError none) (evs1 ++ evs2) tr3
          | some _ =>
            let s4 := { s3 with handlerRegistered := true }
            ⟨.ok (), s4, evs1 ++ evs2, tr3 ++ [s4]⟩

/-- Environment for one `disconnect` call: the outcomes of the three
external awaits (`super.disconnectSession()`, `this._wallet?.disconnect()`
and `super.disconnect()`), each of which may reject. -/
structure DisconnectEnv where
  disconnectSessionOutcome : Except Err Unit
  walletDisconnectOutcome : Except Err Unit
  superDisconnectOutcome : Except Err Unit

/-- Modelled from the spec: `super.disconnect()` of the host base class
clears the rehydration flag and emits the DISCONNECTED lifecycle event. -/
def superDisconnectEffect (s : AdapterState) : AdapterState × List AdapterEvent :=
  ({ s with rehydrated := false }, [.disconnected])

/-- `disconnect(options)` (lines 125–145).  `await await
super.disconnectSession()` runs BEFORE the try block: if it rejects the
whole call rejects.  Inside the try, a failure of the wallet teardown or
of `super.disconnect()` is caught and only emitted as a
`disconnectionError`, and the call resolves.  With `cleanup` the status
becomes NOT_READY and both references are cleared; without it the status
becomes READY and the references are retained. -/
def disconnect (s : AdapterState) (env : DisconnectEnv) (cleanup : Bool) :
    Except Err Unit × AdapterState × List AdapterEvent :=
  match env.disconnectSessionOutcome with
  | .error e => (.error e, s, [])
  | .ok () =>
    let walletRes : Except Err Unit :=
      match s.wallet with
      | none => .ok ()
      | some _ => env.walletDisconnectOutcome
    match walletRes with
    | .error e => (.ok (), s, [.errored (.disconnectionError (errMessage e))])
    | .ok () =>
      let s1 :=
        if cleanup then
          { s with status := ADAPTER_STATUS.NOT_READY, demonProvider := none, wallet := none }
        else
          { s with status := ADAPTER_STATUS.READY }
      match env.superDisconnectOutcome with
      | .error e => (.ok (), s1, [.errored (.disconnectionError (errMessage e))])
      | .ok () =>
        let (s2, evs) := superDisconnectEffect s1
        (.ok (), s2, evs)

/-- The body of the `_onDisconnect` arrow function (lines 189–200): if
`_wallet` is non-null, unregister the listener (`off`), clear the
rehydration flag, move CONNECTED to READY (anything else to NOT_READY),
and emit DISCONNECTED. -/
def onDisconnectHandler (s : AdapterState) : AdapterState × List AdapterEvent :=
  match s.wallet with
  | none => (s, [])
  | some _ =>
    ({ s with handlerRegistered := false, rehydrated := false,
              status := if s.status = ADAPTER_STATUS.CONNECTED then ADAPTER_STATUS.READY
                        else ADAPTER_STATUS.NOT_READY },
     [.disconnected])

/-- One firing of the wallet's external "disconnect" notification: the
emitter invokes `_onDisconnect` only while the listener is registered
(`on`/`off` contract of the wallet, modelled from the spec). -/
def fireWalletDisconnect (s : AdapterState) : AdapterState × List AdapterEvent :=
  if s.handlerRegistered then onDisconnectHandler s else (s, [])

/-- `getChainConfig(chainId)` of the base class: look the chain id up in
the stored chain configs. -/
def getChainConfig (s : AdapterState) (chainId : String) : Option ChainConfig :=
  s.knownChains.find? fun c => c.chainId == chainId

/-- `addChain(chainConfig, init)` (lines 153–160).  The requirement check
is modelled from the spec's taxonomy ("PreconditionError: calling
connect/addChain/switchChain in a state that forbids it").  On success
the config is added to the adapter's stored chain configs
(`addChainConfig`). -/
def addChain (s : AdapterState) (cfg : ChainConfig) (ini : Bool) :
    Except Err Unit × AdapterState :=
  if ini = false ∧ s.status ≠ ADAPTER_STATUS.CONNECTED then
    (.error (.preconditionError "add chain requirements not met"), s)
  else
    (.ok (), { s with knownChains := s.knownChains ++ [cfg] })

/-- `switchChain(params, init)` (lines 164–173).  The requirement check
(`checkSwitchChainRequirements`) is modelled from the spec's
precondition taxonomy; it also demands a stored config for the target
chain id.  `this.demonProvider?.switchChain(params)` is modelled from the
spec: `DemonInjectedProvider.switchChain` (`./providerHandlers`, not under
src/) "delegate[s] to the bound wallet's chain-switch capability"; the
spec does not make it rebuild the provider engine, so the engine (and the
chain config it captured) is left untouched.  Finally
`setAdapterSettings({ chainConfig: this.getChainConfig(params.chainId) })`
replaces the adapter's current chain config. -/
def switchChain (s : AdapterState) (chainId : String) (ini : Bool) :
    Except Err Unit × AdapterState :=
  if ini = false ∧ s.status ≠ ADAPTER_STATUS.CONNECTED then
    (.error (.preconditionError "switch chain requirements not met"), s)
  else
    match getChainConfig s chainId with
    | none => (.error (.preconditionError "chain config not found for chain id"), s)
    | some c => (.ok (), { s with chainConfig := some c })

/-- `init(options)` (lines 58–79).  The base-class calls (`super.init`,
`checkInitializationRequirements`) are modelled from the spec: init needs
a chain config before the adapter can become READY.  Then the
`DemonInjectedProvider` is constructed with the adapter's chain config,
status becomes READY and the READY event fires; with `autoConnect` the
rehydration flag is set and `connect()` is attempted — a failure there is
caught, emitted as ERRORED, and `init` still resolves. -/
def init (s : AdapterState) (env : ConnectEnv) (autoConnect : Bool) :
    Except Err Unit × AdapterState × List AdapterEvent :=
  match s.chainConfig with
  | none => (.error (.preconditionError "chain config required"), s, [])
  | some cfg =>
    let s1 := { s with demonProvider := some ⟨cfg, none⟩, status := ADAPTER_STATUS.READY }
    let evs : List AdapterEvent := [.ready "DEMON"]
    if autoConnect then
      let s2 := { s1 with rehydrated := true }
      let c := connect s2 env
      (.ok (), c.state,
       evs ++ c.events ++ (match c.result with | .ok () => [] | .error e => [.errored e]))
    else
      (.ok (), s1, evs)

/-- The claimed connection invariant: whenever the status is CONNECTED the
adapter holds both a wallet reference and a provider reference. -/
def Inv (s : AdapterState) : Prop :=
  s.status = ADAPTER_STATUS.CONNECTED → s.wallet.isSome ∧ s.demonProvider.isSome

instance (s : AdapterState) : Decidable (Inv s) := by
  unfold Inv; infer_instance

/-- Dispatching the `solana_chainId` query on the engine currently held by
the adapter's provider (if any). -/
def providerChainIdQuery (s : AdapterState) : Option (Except Err (JRPCResponse × Ctl)) :=
  s.demonProvider.bind fun p =>
    p.engine.map fun e =>
      runChain (setupProviderMiddlewares e.handlers e.config) ⟨"solana_chainId", .vNull⟩ ⟨none⟩

/-! ## Concrete fixtures used by witnesses and counterexamples -/

/-- Chain config for chain id "0x1". -/
def cfg1 : ChainConfig := ⟨"0x1"⟩

/-- Chain config for chain id "0x2". -/
def cfg2 : ChainConfig := ⟨"0x2"⟩

/-- A handlers record with every slot absent. -/
def H0 : IProviderHandlers := ⟨none, none, none, none, none, none, none, none⟩

/-- A handlers record with concrete signing and key handlers present. -/
def H1 : IProviderHandlers :=
  { requestAccounts := some fun _ => .ok (.vStrs ["acct1"])
    getAccounts := some fun _ => .ok (.vStrs ["acct1"])
    signTransaction := some fun _ => .ok (.vStr "signedTx")
    signAndSendTransaction := some fun _ => .ok (.vStr "txSig")
    signAllTransactions := some fun _ => .ok (.vStrs ["signedTx"])
    signMessage := some fun _ => .ok (.vStr "msgSig")
    getPrivateKey := some fun r => .ok (.vStr r.method)
    getSecretKey := some fun _ => .ok (.vStr "secret") }

/-- A benign connect environment: the fresh wallet is not yet connected,
its `connect()` succeeds and yields a public key. -/
def env0 : ConnectEnv :=
  { walletInitiallyConnected := false
    walletInitialPublicKey := none
    walletConnectOutcome := .ok ()
    walletPublicKey := some "DemonPubKey"
    providerHandlers := H0 }

/-- The adapter state right after a successful `init` on chain "0x1"
(with chain "0x2" also registered in the stored chain configs). -/
def sReady : AdapterState :=
  { status := .READY
    wallet := none
    demonProvider := some ⟨cfg1, none⟩
    rehydrated := false
    chainConfig := some cfg1
    knownChains := [cfg1, cfg2]
    handlerRegistered := false }

/-- The adapter state after a successful `connect` from `sReady`. -/
def sConnected : AdapterState := (connect sReady env0).state

example : sConnected.status = .CONNECTED := rfl

example : (connect sReady env0).result = .ok () := rfl

example : sConnected.wallet =
    some { connected := true, publicKey := some "DemonPubKey", network := "mainnet-beta" } := rfl

/-! ## Chain lemmas -/

/-- A middleware that falls through without touching the response is
transparent to the chain. -/
theorem runChain_cons_next (m : Middleware) (ms : List Middleware) (req : JRPCRequest)
    (res : JRPCResponse) (h : m req res = .ok (res, .next)) :
    runChain (m :: ms) req res = runChain ms req res := by
  simp [runChain, h]

/-- A middleware that never falls through decides the whole chain: the
later middlewares are irrelevant. -/
theorem runChain_cons_stop (m : Middleware) (ms : List Middleware) (req : JRPCRequest)
    (res : JRPCResponse) (h : ∀ r, m req res ≠ Except.ok (r, Ctl.next)) :
    runChain (m :: ms) req res = m req res := by
  rcases hm : m req res with e | ⟨r, c⟩
  · simp [runChain, hm]
  · cases c
    · exact absurd hm (h r)
    · simp [runChain, hm]

/-- Chains of pointwise-equal middlewares behave identically. -/
theorem runChain_congr {ms ms' : List Middleware} {req : JRPCRequest}
    (h : List.Forall₂ (fun m m' => ∀ r : JRPCResponse, m req r = m' req r) ms ms') :
    ∀ res, runChain ms req res = runChain ms' req res := by
  induction h with
  | nil => intro res; rfl
  | @cons m m' ms ms' hm hms ih =>
    intro res
    simp only [runChain]
    rw [hm res]
    rcases hq : m' req res with e | ⟨r1, c⟩
    · rfl
    · cases c
      · exact ih r1
      · rfl

/-- The outcome of a claiming binding is an error or an ended chain,
never a fall-through. -/
theorem bindingOutcome_not_next (b : Binding) (req : JRPCRequest) (res : JRPCResponse)
    (r : JRPCResponse) : bindingOutcome b req res ≠ .ok (r, .next) := by
  unfold bindingOutcome
  rcases b.handler with _ | h
  · simp
  · rcases hq : h req with e | v <;> simp [Except.map, hq]

/-- First-match dispatch over a binding list: if the request's method
equals the name of the binding at position `i` and matches none of the
earlier bindings, the dispatch outcome is that binding's outcome, and it
is already determined by the first `i + 1` bindings. -/
theorem runBindings_get_match (bs : List Binding) (req : JRPCRequest) :
    ∀ (i : Nat) (hi : i < bs.length),
      req.method = (bs.get ⟨i, hi⟩).methodName →
      (∀ (j : Nat) (hj : j < i), req.method ≠ (bs.get ⟨j, Nat.lt_trans hj hi⟩).methodName) →
      ∀ res, runBindings bs req res = bindingOutcome (bs.get ⟨i, hi⟩) req res
        ∧ runBindings bs req res = runBindings (bs.take (i + 1)) req res := by
  induction bs with
  | nil => intro i hi; exact absurd hi (by simp)
  | cons b bs ih =>
    intro i hi hm hpre res
    cases i with
    | zero =>
      have hb : bindingMiddleware b req res = bindingOutcome b req res := by
        simp only [List.get] at hm
        simp [bindingMiddleware, hm]
      have hstop : ∀ ms, runChain (bindingMiddleware b :: ms) req res
          = bindingOutcome b req res := by
        intro ms
        rw [runChain_cons_stop _ _ _ _ ?stop, hb]
        case stop =>
          intro r hr
          rw [hb] at hr
          exact bindingOutcome_not_next b req res r hr
      constructor
      · simpa only [runBindings, List.map_cons] using hstop (bs.map bindingMiddleware)
      · simp only [runBindings, List.take, List.map_cons]
        rw [hstop, hstop]
    | succ i1 =>
      have ha : req.method ≠ b.methodName := hpre 0 (Nat.succ_pos i1)
      have hskip : bindingMiddleware b req res = .ok (res, .next) := by
        simp [bindingMiddleware, ha]
      have ihres := ih i1 (by simpa using hi) (by simpa using hm)
        (fun j hj => by simpa using hpre (j + 1) (by omega)) res
      constructor
      · simp only [runBindings, List.map_cons]
        rw [runChain_cons_next _ _ _ _ hskip]
        simpa only [runBindings] using ihres.1
      · simp only [runBindings, List.take, List.map_cons]
        rw [runChain_cons_next _ _ _ _ hskip, runChain_cons_next _ _ _ _ hskip]
        simpa only [runBindings] using ihres.2

/-- The solana middleware is exactly first-match dispatch over its
binding list. -/
theorem createSolanaMiddleware_eq_runBindings (H : IProviderHandlers) (req : JRPCRequest)
    (res : JRPCResponse) :
    createSolanaMiddleware H req res = runBindings (solanaBindings H) req res := by
  simp only [createSolanaMiddleware, mergeMiddleware, runBindings, solanaBindings,
    List.map_cons, List.map_nil]
  exact runChain_congr
    (.cons (fun r => rfl) (.cons (fun r => rfl) (.cons (fun r => rfl) (.cons (fun r => rfl)
      (.cons (fun r => rfl) (.cons (fun r => rfl) (.cons (fun r => rfl) (.cons (fun r => rfl)
        (.cons (fun r => rfl) .nil))))))))) res

/-- The nine binding names of the solana middleware are pairwise
distinct, so a request matching the binding at position `i` matches no
earlier binding. -/
theorem solanaBindings_earlier_no_match (H : IProviderHandlers) (req : JRPCRequest)
    (i : Nat) (hi : i < (solanaBindings H).length)
    (hm : req.method = ((solanaBindings H).get ⟨i, hi⟩).methodName) :
    ∀ (j : Nat) (hj : j < i),
      req.method ≠ ((solanaBindings H).get ⟨j, Nat.lt_trans hj hi⟩).methodName := by
  intro j hj
  have hi9 : i < 9 := by simpa [solanaBindings] using hi
  have hj9 : j < 9 := by omega
  rw [hm]
  interval_cases i <;> interval_cases j <;> exact ne_of_beq_false rfl

/-- First-match behaviour of the solana middleware: a request matching
the binding at position `i` produces that binding's outcome, and the
outcome is already determined by the first `i + 1` bindings. -/
theorem solanaMiddleware_first_match (H : IProviderHandlers) (req : JRPCRequest)
    (res : JRPCResponse) (i : Nat) (hi : i < (solanaBindings H).length)
    (hm : req.method = ((solanaBindings H).get ⟨i, hi⟩).methodName) :
    createSolanaMiddleware H req res = bindingOutcome ((solanaBindings H).get ⟨i, hi⟩) req res
    ∧ createSolanaMiddleware H req res
        = runBindings ((solanaBindings H).take (i + 1)) req res := by
  have main := runBindings_get_match (solanaBindings H) req i hi hm
    (solanaBindings_earlier_no_match H req i hi hm) res
  have hbridge := createSolanaMiddleware_eq_runBindings H req res
  exact ⟨hbridge.trans main.1, hbridge.trans main.2⟩

/-! ## Claims about the method router (C7, C8, C9, C10) -/

/-- C7: for every request whose method equals the method name of some
binding of the solana middleware, dispatch runs that binding's handler on
the request, assigns the handler's return value into `response.result`,
and ends the chain (`bindingOutcome`); and the dispatch outcome is
already determined by the bindings up to and including the matched one,
so no later binding is consulted — even when the matched handler throws
(the equality with the truncated binding list holds in the error case as
well). -/
theorem c7_first_match_short_circuits (H : IProviderHandlers) (req : JRPCRequest)
    (res : JRPCResponse) (i : Nat) (hi : i < (solanaBindings H).length)
    (hm : req.method = ((solanaBindings H).get ⟨i, hi⟩).methodName) :
    createSolanaMiddleware H req res = bindingOutcome ((solanaBindings H).get ⟨i, hi⟩) req res
    ∧ createSolanaMiddleware H req res
        = runBindings ((solanaBindings H).take (i + 1)) req res :=
  solanaMiddleware_first_match H req res i hi hm

/-- C7 witness: the `signMessage` request on a fully populated handlers
record is claimed by the sixth binding with its handler's result. -/
theorem c7_witness :
    (5 < (solanaBindings H1).length
      ∧ (⟨"signMessage", .vNull⟩ : JRPCRequest).method
          = ((solanaBindings H1).get ⟨5, by decide⟩).methodName)
    ∧ (createSolanaMiddleware H1 ⟨"signMessage", .vNull⟩ ⟨none⟩
          = bindingOutcome ((solanaBindings H1).get ⟨5, by decide⟩) ⟨"signMessage", .vNull⟩ ⟨none⟩
        ∧ createSolanaMiddleware H1 ⟨"signMessage", .vNull⟩ ⟨none⟩
          = runBindings ((solanaBindings H1).take 6) ⟨"signMessage", .vNull⟩ ⟨none⟩) :=
  ⟨⟨by decide, rfl⟩,
   c7_first_match_short_circuits H1 ⟨"signMessage", .vNull⟩ ⟨none⟩ 5 (by decide) rfl⟩

/-- C8: a request whose method matches none of the fixed bindings — the
nine business methods plus `solana_chainId` and `solana_provider_config`
— leaves the response untouched and signals fall-through to the next
stage, and never errors, whatever the handlers and chain config are. -/
theorem c8_unbound_method_falls_through (H : IProviderHandlers) (cfg : ChainConfig)
    (req : JRPCRequest) (res : JRPCResponse)
    (h : req.method ∉ engineMethodNames) :
    runChain (setupProviderMiddlewares H cfg) req res = .ok (res, .next) := by
  simp only [engineMethodNames, List.mem_cons, List.not_mem_nil, or_false, not_or] at h
  obtain ⟨h1, h2, h3, h4, h5, h6, h7, h8, h9, h10, h11⟩ := h
  simp [setupProviderMiddlewares, createSolanaMiddleware, createConfigMiddleware,
    mergeMiddleware, runChain, createGenericJRPCMiddleware, createGetAccountsMiddleware,
    createRequestAccountsMiddleware, createChainIdMiddleware, createProviderConfigMiddleware,
    h1, h2, h3, h4, h5, h6, h7, h8, h9, h10, h11]

/-- C8 witness: the unbound method `eth_accounts` falls through the two
engine stages with the response unchanged. -/
theorem c8_witness :
    (⟨"eth_accounts", .vNull⟩ : JRPCRequest).method ∉ engineMethodNames
    ∧ runChain (setupProviderMiddlewares H1 cfg1) ⟨"eth_accounts", .vNull⟩ ⟨none⟩
        = .ok (⟨none⟩, .next) :=
  ⟨by decide,
   c8_unbound_method_falls_through H1 cfg1 ⟨"eth_accounts", .vNull⟩ ⟨none⟩ (by decide)⟩

/-- C9: dispatching a request for a bound method whose handler slot is
absent fails with the "handler not provided" error of that binding — an
error whose message contains the method name — and in particular does not
fall through (the outcome is an error, not a `Ctl.next` success). -/
theorem c9_absent_handler_errors (H : IProviderHandlers) (req : JRPCRequest)
    (res : JRPCResponse) (i : Nat) (hi : i < (solanaBindings H).length)
    (hm : req.method = ((solanaBindings H).get ⟨i, hi⟩).methodName)
    (hnone : ((solanaBindings H).get ⟨i, hi⟩).handler = none) :
    createSolanaMiddleware H req res
      = .error (.handlerNotProvided ((solanaBindings H).get ⟨i, hi⟩).missingMsg)
    ∧ ∃ p q, ((solanaBindings H).get ⟨i, hi⟩).missingMsg
        = p ++ ((solanaBindings H).get ⟨i, hi⟩).methodName ++ q := by
  have hi9 : i < 9 := by simpa [solanaBindings] using hi
  have hout := (solanaMiddleware_first_match H req res i hi hm).1
  refine ⟨?_, ?_⟩
  · rw [hout]
    unfold bindingOutcome
    rw [hnone]
  · interval_cases i <;>
      first
      | exact ⟨"WalletMiddleware - opts.", " not provided", rfl⟩
      | exact ⟨"WalletMiddleware - ", " not provided", rfl⟩

/-- C9 witness: with every handler slot absent, a `signMessage` request
fails with the error naming `signMessage` instead of falling through. -/
theorem c9_witness :
    (5 < (solanaBindings H0).length
      ∧ (⟨"signMessage", .vNull⟩ : JRPCRequest).method
          = ((solanaBindings H0).get ⟨5, by decide⟩).methodName
      ∧ ((solanaBindings H0).get ⟨5, by decide⟩).handler = none)
    ∧ (createSolanaMiddleware H0 ⟨"signMessage", .vNull⟩ ⟨none⟩
          = .error (.handlerNotProvided ((solanaBindings H0).get ⟨5, by decide⟩).missingMsg)
        ∧ ∃ p q, ((solanaBindings H0).get ⟨5, by decide⟩).missingMsg
            = p ++ ((solanaBindings H0).get ⟨5, by decide⟩).methodName ++ q) :=
  ⟨⟨by decide, rfl, rfl⟩,
   c9_absent_handler_errors H0 ⟨"signMessage", .vNull⟩ ⟨none⟩ 5 (by decide) rfl rfl⟩

/-- C10 counterexample: the claim "dispatching `solanaPrivateKey` and
dispatching `private_key` produce identical results (and fail identically
when that handler is absent)" is false at a concrete input: with the
`getPrivateKey` slot absent, the two dispatches fail with different
errors — each "not provided" message names its own method. -/
theorem c10_counterexample :
    createSolanaMiddleware H0 ⟨"solanaPrivateKey", .vNull⟩ ⟨none⟩
      = .error (.handlerNotProvided "WalletMiddleware - solanaPrivateKey not provided")
    ∧ createSolanaMiddleware H0 ⟨"private_key", .vNull⟩ ⟨none⟩
      = .error (.handlerNotProvided "WalletMiddleware - private_key not provided")
    ∧ createSolanaMiddleware H0 ⟨"solanaPrivateKey", .vNull⟩ ⟨none⟩
      ≠ createSolanaMiddleware H0 ⟨"private_key", .vNull⟩ ⟨none⟩ := by
  have h1 : createSolanaMiddleware H0 ⟨"solanaPrivateKey", .vNull⟩ ⟨none⟩
      = .error (.handlerNotProvided "WalletMiddleware - solanaPrivateKey not provided") := rfl
  have h2 : createSolanaMiddleware H0 ⟨"private_key", .vNull⟩ ⟨none⟩
      = .error (.handlerNotProvided "WalletMiddleware - private_key not provided") := rfl
  refine ⟨h1, h2, ?_⟩
  rw [h1, h2]
  simp

/-- C10 (amended): both the `solanaPrivateKey` dispatch and the
`private_key` dispatch are driven by the one `getPrivateKey` handler
slot: each equals the canonical outcome of a binding for its own method
name backed by `H.getPrivateKey`.  Hence both succeed or fail together
with the same underlying handler — the results coincide whenever that
handler's result does not depend on the request's method field, and when
the slot is absent each fails with a "not provided" error naming its own
method. -/
theorem c10_both_names_use_getPrivateKey (H : IProviderHandlers) (p : JVal)
    (res : JRPCResponse) :
    createSolanaMiddleware H ⟨"solanaPrivateKey", p⟩ res
      = bindingOutcome ⟨"solanaPrivateKey",
          "WalletMiddleware - solanaPrivateKey not provided", H.getPrivateKey⟩
          ⟨"solanaPrivateKey", p⟩ res
    ∧ createSolanaMiddleware H ⟨"private_key", p⟩ res
      = bindingOutcome ⟨"private_key",
          "WalletMiddleware - private_key not provided", H.getPrivateKey⟩
          ⟨"private_key", p⟩ res := by
  constructor
  · exact (solanaMiddleware_first_match H ⟨"solanaPrivateKey", p⟩ res 6
      (by simp [solanaBindings]) rfl).1
  · exact (solanaMiddleware_first_match H ⟨"private_key", p⟩ res 7
      (by simp [solanaBindings]) rfl).1

/-! ## Lifecycle lemmas -/

/-- However a `connect` call ends, its final state satisfies the
connection invariant: the error path resets the status to READY, and the
success path has installed both the wallet and the provider reference. -/
theorem connect_inv (s : AdapterState) (env : ConnectEnv) : Inv (connect s env).state := by
  unfold Inv
  simp only [connect, connectCatch, connectWithProvider]
  rcases hp : s.demonProvider with _ | pr <;>
    simp only [hp] <;>
    repeat' split <;>
    (intros; try simp_all)

/-- At every intermediate point of `connect` at which the status is
CONNECTED, the provider reference is populated: `connectWithProvider`
checks it before the transition. -/
theorem connect_trace_provider (s : AdapterState) (env : ConnectEnv) :
    ∀ t ∈ (connect s env).trace,
      t.status = ADAPTER_STATUS.CONNECTED → t.demonProvider.isSome := by
  rw [← List.forall_iff_forall_mem]
  simp only [connect, connectCatch, connectWithProvider]
  rcases hp : s.demonProvider with _ | pr <;>
    simp only [hp] <;>
    repeat' split <;>
    (try simp_all [List.Forall])

/-! ## Claims about the lifecycle state machine (C1 – C6) -/

/-- C1 counterexample: on a first `connect` from the freshly initialised
READY state, the point at which the status becomes CONNECTED (inside
`connectWithProvider`, where the CONNECTED event is also emitted) still
has `_wallet` absent, because `this._wallet = wallet` only runs after
`connectWithProvider` returns: the third trace entry of the successful
run has status CONNECTED and no wallet reference, refuting the claim
that the transition to CONNECTED happens only with both references
populated. -/
theorem c1_counterexample :
    ∃ t ∈ (connect sReady env0).trace,
      t.status = ADAPTER_STATUS.CONNECTED ∧ t.wallet = none := by
  have hlen : (connect sReady env0).trace.length = 5 := rfl
  exact ⟨(connect sReady env0).trace.get ⟨2, by omega⟩, List.get_mem _ _ _, rfl, rfl⟩

/-- C1 (amended): the invariant holds at every operation boundary — from
a state satisfying it, each adapter operation (connect, disconnect, the
external disconnect firing, addChain, switchChain, init) ends in a state
where CONNECTED implies both a non-absent wallet and a non-absent
provider reference — and at every intermediate point of `connect` with
status CONNECTED the PROVIDER reference is populated (the transition is
guarded by the provider null check).  The wallet reference is populated
only immediately after the transition to CONNECTED, not at it, which is
the one part of the claim the code does not satisfy (see the
counterexample). -/
theorem c1_connected_invariant (s : AdapterState) (h : Inv s) :
    (∀ env, Inv (connect s env).state
      ∧ ∀ t ∈ (connect s env).trace,
          t.status = ADAPTER_STATUS.CONNECTED → t.demonProvider.isSome)
    ∧ (∀ env c, Inv (disconnect s env c).2.1)
    ∧ Inv (fireWalletDisconnect s).1
    ∧ (∀ cfg ini, Inv (addChain s cfg ini).2)
    ∧ (∀ cid ini, Inv (switchChain s cid ini).2)
    ∧ (∀ env auto, Inv (init s env auto).2.1) := by
  refine ⟨fun env => ⟨connect_inv s env, connect_trace_provider s env⟩, ?_, ?_, ?_, ?_, ?_⟩
  · intro env c
    unfold Inv at h ⊢
    simp only [disconnect, superDisconnectEffect]
    repeat' split <;> (intros; try simp_all)
  · unfold Inv at h ⊢
    simp only [fireWalletDisconnect, onDisconnectHandler]
    rcases hreg : s.handlerRegistered <;> rcases hw : s.wallet with _ | w <;>
      rcases hst : s.status <;> simp_all
  · intro cfg ini
    unfold Inv at h ⊢
    simp only [addChain]
    repeat' split <;> (intros; try simp_all)
  · intro cid ini
    unfold Inv at h ⊢
    simp only [switchChain]
    repeat' split <;> (intros; try simp_all)
  · intro env auto
    simp only [init]
    rcases hc : s.chainConfig with _ | cfg
    · exact h
    · cases auto
      · intro hcon
        simp at hcon
      · exact connect_inv _ env

/-- C1 witness: the amended invariant instantiated at the
freshly initialised READY state. -/
theorem c1_witness :
    Inv sReady
    ∧ ((∀ env, Inv (connect sReady env).state
        ∧ ∀ t ∈ (connect sReady env).trace,
            t.status = ADAPTER_STATUS.CONNECTED → t.demonProvider.isSome)
      ∧ (∀ env c, Inv (disconnect sReady env c).2.1)
      ∧ Inv (fireWalletDisconnect sReady).1
      ∧ (∀ cfg ini, Inv (addChain sReady cfg ini).2)
      ∧ (∀ cid ini, Inv (switchChain sReady cid ini).2)
      ∧ (∀ env auto, Inv (init sReady env auto).2.1)) :=
  ⟨by decide, c1_connected_invariant sReady (by decide)⟩

/-- C2 counterexample: calling `connect` again on the CONNECTED state
reached by a first successful `connect` rejects as claimed, but the
catch block of `connect` then resets the status to READY: after the
rejection the status is NOT still CONNECTED (the wallet and provider
references are untouched). -/
theorem c2_counterexample :
    (connect sConnected env0).result = .error (.preconditionError "already connected")
    ∧ (connect sConnected env0).state.status = .READY
    ∧ (connect sConnected env0).state.status ≠ .CONNECTED
    ∧ (connect sConnected env0).state.wallet = sConnected.wallet
    ∧ (connect sConnected env0).state.demonProvider = sConnected.demonProvider := by
  have hs : (connect sConnected env0).state.status = .READY := rfl
  refine ⟨rfl, hs, ?_, rfl, rfl⟩
  rw [hs]
  simp

/-- C2 (amended): a second `connect` while the adapter is CONNECTED
rejects with the precondition (already-connected) error and leaves the
wallet and provider references established by the first call unchanged;
but the catch-all error path of `connect` resets the status to READY, so
the CONNECTED status itself is not preserved. -/
theorem c2_double_connect_rejects (s : AdapterState) (env : ConnectEnv)
    (h : s.status = .CONNECTED) :
    (connect s env).result = .error (.preconditionError "already connected")
    ∧ (connect s env).state.wallet = s.wallet
    ∧ (connect s env).state.demonProvider = s.demonProvider
    ∧ (connect s env).state.status = .READY
    ∧ (connect s env).events = [.errored (.preconditionError "already connected")] := by
  simp [connect, checkConnectionRequirements, h, connectCatch]

/-- C2 witness: the amended statement at the concrete CONNECTED state
reached by a first successful `connect`. -/
theorem c2_witness :
    sConnected.status = .CONNECTED
    ∧ ((connect sConnected env0).result = .error (.preconditionError "already connected")
      ∧ (connect sConnected env0).state.wallet = sConnected.wallet
      ∧ (connect sConnected env0).state.demonProvider = sConnected.demonProvider
      ∧ (connect sConnected env0).state.status = .READY
      ∧ (connect sConnected env0).events
          = [.errored (.preconditionError "already connected")]) :=
  ⟨rfl, c2_double_connect_rejects sConnected env0 rfl⟩

/-- C3 counterexample: from the CONNECTED state whose engine was built
under chain "0x1", a successful `switchChain` to "0x2" updates the
adapter's stored ChainConfig to "0x2", yet a subsequent `solana_chainId`
dispatch on the existing provider still returns "0x1" — the value
captured by `createConfigMiddleware` when the engine was built, not the
adapter's ChainConfig at the time of the query. -/
theorem c3_counterexample :
    (switchChain sConnected "0x2" false).1 = .ok ()
    ∧ (switchChain sConnected "0x2" false).2.chainConfig = some cfg2
    ∧ providerChainIdQuery (switchChain sConnected "0x2" false).2
        = some (.ok ({ result := some (.vStr "0x1") }, .ended))
    ∧ cfg2.chainId ≠ "0x1" := by
  exact ⟨rfl, rfl, rfl, by decide⟩

/-- C3 (amended): the config-responder queries answer from the chain
config captured when the provider engine was built by `setupProvider`,
not from the adapter's ChainConfig at the time of the query: on any
engine, `solana_chainId` returns the captured config's chain id and
`solana_provider_config` returns the captured config itself, whatever
handlers the engine holds; and `switchChain` never changes the provider
reference (hence the engine and its captured config), so after a
successful `switchChain` a dispatch on the existing provider still
answers with the values captured earlier. -/
theorem c3_config_answers_captured (e : EngineState) (p : JVal) (res : JRPCResponse) :
    runChain (setupProviderMiddlewares e.handlers e.config) ⟨"solana_chainId", p⟩ res
      = .ok ({ res with result := some (.vStr e.config.chainId) }, .ended)
    ∧ runChain (setupProviderMiddlewares e.handlers e.config) ⟨"solana_provider_config", p⟩ res
      = .ok ({ res with result := some (.vConfig e.config) }, .ended)
    ∧ ∀ (s : AdapterState) (cid : String) (ini : Bool),
        (switchChain s cid ini).2.demonProvider = s.demonProvider := by
  refine ⟨?_, ?_, ?_⟩
  · simp [setupProviderMiddlewares, createSolanaMiddleware, createConfigMiddleware,
      mergeMiddleware, runChain, createGenericJRPCMiddleware, createGetAccountsMiddleware,
      createRequestAccountsMiddleware, createChainIdMiddleware, createProviderConfigMiddleware]
  · simp [setupProviderMiddlewares, createSolanaMiddleware, createConfigMiddleware,
      mergeMiddleware, runChain, createGenericJRPCMiddleware, createGetAccountsMiddleware,
      createRequestAccountsMiddleware, createChainIdMiddleware, createProviderConfigMiddleware]
  · intro s cid ini
    unfold switchChain
    split
    · rfl
    · rcases hg : getChainConfig s cid with _ | c <;> simp [hg]

/-- C4: while CONNECTED with the wallet reference present and the
disconnect listener registered (exactly the state a successful `connect`
establishes), the external disconnect notification moves the adapter to
READY and emits exactly one DISCONNECTED event; and because the handler
unregistered itself with `off`, a second firing in a row is a no-op —
no state change and no further event. -/
theorem c4_external_disconnect_idempotent (s : AdapterState)
    (h1 : s.status = .CONNECTED) (h2 : s.handlerRegistered = true)
    (h3 : s.wallet.isSome) :
    (fireWalletDisconnect s).1.status = .READY
    ∧ (fireWalletDisconnect s).2 = [.disconnected]
    ∧ fireWalletDisconnect (fireWalletDisconnect s).1 = ((fireWalletDisconnect s).1, []) := by
  rcases hw : s.wallet with _ | w
  · rw [hw] at h3; cases h3
  · simp [fireWalletDisconnect, onDisconnectHandler, h1, h2, hw]

/-- C4 witness: the external disconnect behaviour at the concrete
CONNECTED state reached by a successful `connect`. -/
theorem c4_witness :
    (sConnected.status = .CONNECTED ∧ sConnected.handlerRegistered = true
      ∧ sConnected.wallet.isSome)
    ∧ ((fireWalletDisconnect sConnected).1.status = .READY
      ∧ (fireWalletDisconnect sConnected).2 = [.disconnected]
      ∧ fireWalletDisconnect (fireWalletDisconnect sConnected).1
          = ((fireWalletDisconnect sConnected).1, [])) :=
  ⟨⟨rfl, rfl, rfl⟩, c4_external_disconnect_idempotent sConnected rfl rfl rfl⟩

/-- The READY state with an unsupported chain id "0x4" configured. -/
def s0x4 : AdapterState := { sReady with chainConfig := some ⟨"0x4"⟩ }

/-- C5 counterexample: `connect` with chain id "0x4" rejects with
`WalletLoginError.connectionError` — i.e. the CONNECTION-error class
carrying the invalid-chain message — not with a distinct
unsupported-chain error class, refuting the claim that the rejection is
"distinct from ConnectionError". -/
theorem c5_counterexample :
    (connect s0x4 env0).result = .error (.connectionError
      (some "Invalid chainId, demon doesn't support custom solana networks"))
    ∧ (connect s0x4 env0).state.status = .READY := ⟨rfl, rfl⟩

/-- C5 (amended): for every chain id outside {"0x1","0x2","0x3"} (or a
missing chain config), `connect` from READY rejects with a
connection error (`WalletLoginError.connectionError`, the same class the
code uses for session failures) whose message is "Invalid chainId, demon
doesn't support custom solana networks", and the status is READY after
the rejection; the supported ids resolve to cluster "mainnet-beta"
(mainnet) for "0x1", "devnet" for "0x2" and "testnet" for "0x3". -/
theorem c5_unsupported_chain (s : AdapterState) (env : ConnectEnv)
    (hs : s.status = .READY)
    (h1 : s.chainConfig.map (·.chainId) ≠ some "0x1")
    (h2 : s.chainConfig.map (·.chainId) ≠ some "0x2")
    (h3 : s.chainConfig.map (·.chainId) ≠ some "0x3") :
    (connect s env).result = .error (.connectionError
      (some "Invalid chainId, demon doesn't support custom solana networks"))
    ∧ (connect s env).state.status = .READY
    ∧ resolveCluster (some "0x1") = .ok "mainnet-beta"
    ∧ resolveCluster (some "0x2") = .ok "devnet"
    ∧ resolveCluster (some "0x3") = .ok "testnet" := by
  have hres : resolveCluster (s.chainConfig.map (·.chainId))
      = .error (.connectionError
          (some "Invalid chainId, demon doesn't support custom solana networks")) := by
    simp [resolveCluster, h1, h2, h3]
  refine ⟨?_, ?_, rfl, rfl, rfl⟩ <;>
    simp [connect, checkConnectionRequirements, hs, hres, connectCatch]

/-- C5 witness: the amended statement at the concrete READY state with
chain id "0x4". -/
theorem c5_witness :
    (s0x4.status = .READY
      ∧ s0x4.chainConfig.map (·.chainId) ≠ some "0x1"
      ∧ s0x4.chainConfig.map (·.chainId) ≠ some "0x2"
      ∧ s0x4.chainConfig.map (·.chainId) ≠ some "0x3")
    ∧ ((connect s0x4 env0).result = .error (.connectionError
        (some "Invalid chainId, demon doesn't support custom solana networks"))
      ∧ (connect s0x4 env0).state.status = .READY
      ∧ resolveCluster (some "0x1") = .ok "mainnet-beta"
      ∧ resolveCluster (some "0x2") = .ok "devnet"
      ∧ resolveCluster (some "0x3") = .ok "testnet") :=
  ⟨⟨rfl, by decide, by decide, by decide⟩,
   c5_unsupported_chain s0x4 env0 rfl (by decide) (by decide) (by decide)⟩

/-- A disconnect environment whose initial session teardown
(`super.disconnectSession()`) rejects. -/
def envSessionFails : DisconnectEnv :=
  ⟨.error (.external "session teardown failed"), .ok (), .ok ()⟩

/-- A disconnect environment where the wallet's own `disconnect()`
rejects but the session teardown succeeds. -/
def envWalletFails : DisconnectEnv :=
  ⟨.ok (), .error (.external "wallet refused to disconnect"), .ok ()⟩

/-- C6 counterexample: an error raised by `super.disconnectSession()` —
which `disconnect` awaits BEFORE its try block — propagates to the
caller: at this concrete input the `disconnect` promise rejects instead
of resolving, refuting the claim that no error raised inside
`disconnect()` reaches the caller. -/
theorem c6_counterexample :
    (disconnect sConnected envSessionFails false).1
      = .error (.external "session teardown failed")
    ∧ (disconnect sConnected envSessionFails false).1 ≠ .ok () := by
  have h : (disconnect sConnected envSessionFails false).1
      = .error (.external "session teardown failed") := rfl
  refine ⟨h, ?_⟩
  rw [h]
  simp

/-- C6 (amended): once the initial `super.disconnectSession()` call (the
only await outside the try block) succeeds, `disconnect` always resolves,
whatever happens to the wallet teardown, the cleanup, or the base-class
disconnect inside the try block, and every ERRORED event it emits
carries a `disconnectionError`.  An error from `disconnectSession`
itself, however, occurs before the try block and rejects the promise
(see the counterexample). -/
theorem c6_disconnect_resolves (s : AdapterState) (env : DisconnectEnv) (cleanup : Bool)
    (h : env.disconnectSessionOutcome = .ok ()) :
    (disconnect s env cleanup).1 = .ok ()
    ∧ ∀ e, AdapterEvent.errored e ∈ (disconnect s env cleanup).2.2 →
        ∃ m, e = Err.disconnectionError m := by
  constructor
  · rcases hw : s.wallet with _ | w <;>
      rcases hwo : env.walletDisconnectOutcome with e1 | ⟨⟩ <;>
      rcases hso : env.superDisconnectOutcome with e2 | ⟨⟩ <;>
      simp [disconnect, h, hw, hwo, hso, superDisconnectEffect]
  · intro e he
    rcases hw : s.wallet with _ | w <;>
      rcases hwo : env.walletDisconnectOutcome with e1 | ⟨⟩ <;>
      rcases hso : env.superDisconnectOutcome with e2 | ⟨⟩ <;>
      simp [disconnect, h, hw, hwo, hso, superDisconnectEffect] at he <;>
      exact ⟨_, he⟩

/-- C6 witness: with a succeeding session teardown but a failing wallet
`disconnect()`, the call resolves and only a `disconnectionError` is
emitted. -/
theorem c6_witness :
    envWalletFails.disconnectSessionOutcome = .ok ()
    ∧ ((disconnect sConnected envWalletFails false).1 = .ok ()
      ∧ ∀ e, AdapterEvent.errored e ∈ (disconnect sConnected envWalletFails false).2.2 →
          ∃ m, e = Err.disconnectionError m) :=
  ⟨rfl, c6_disconnect_resolves sConnected envWalletFails false rfl⟩

end Demon
